import Mathlib

/-!
The list handler of the transfer-engine client (`handlers/listHandler.go`).

A shallow embedding of `HandleListCommand` and of the three printers
`PrintExistingJobIds`, `PrintJobTransfers` and `PrintJobProgressSummary`.

Go `string` and `[]byte` values are Lean strings.  A run of a Go function is
the list of the actions it performed, in order, together with the way it
ended (a normal return or an unrecovered panic).  The collaborators the
handler calls but does not define (the `common` package, `encoding/json` on
the response schemas, the HTTP client) are the fields of `World`.
-/

namespace ListHandler

set_option maxRecDepth 8000

deriving instance DecidableEq for Except

/-! ## UUIDs and their text form -/

/-- Modelled from the spec: the type `common.UUID`, whose declaration is not
part of the handler's file.  A UUID is sixteen bytes. -/
structure UUID where
  bytes : List (Fin 256)
  size : bytes.length = 16
deriving DecidableEq

/-- The lower-case hexadecimal digit of `n % 16`. -/
def hexDigit (n : Nat) : Char :=
  ['0', '1', '2', '3', '4', '5', '6', '7', '8', '9', 'a', 'b', 'c', 'd', 'e', 'f'].getD
    (n % 16) '0'

/-- The value of a hexadecimal digit, either case. -/
def hexVal (c : Char) : Option Nat :=
  if '0'.toNat ≤ c.toNat ∧ c.toNat ≤ '9'.toNat then some (c.toNat - '0'.toNat)
  else if 'a'.toNat ≤ c.toNat ∧ c.toNat ≤ 'f'.toNat then some (c.toNat - 'a'.toNat + 10)
  else if 'A'.toNat ≤ c.toNat ∧ c.toNat ≤ 'F'.toNat then some (c.toNat - 'A'.toNat + 10)
  else none

/-- Two hexadecimal digits per byte, high digit first. -/
def hexBytes : List (Fin 256) → List Char
  | [] => []
  | b :: bs => hexDigit (b.val / 16) :: hexDigit b.val :: hexBytes bs

/-- Reads `n` bytes, two hexadecimal digits each, and returns what follows. -/
def parseHexBytes : Nat → List Char → Option (List (Fin 256) × List Char)
  | 0, cs => some ([], cs)
  | n + 1, c1 :: c2 :: cs =>
    match hexVal c1, hexVal c2, parseHexBytes n cs with
    | some hi, some lo, some (bs, rest) => some (Fin.ofNat (16 * hi + lo) :: bs, rest)
    | _, _, _ => none
  | _ + 1, _ => none

/-- Skips one dash. -/
def expectDash : List Char → Option (List Char)
  | '-' :: cs => some cs
  | _ => none

/-- Modelled from the spec: the canonical text of a UUID (`common.UUID.String`,
not part of the handler's file): the groups of 4, 2, 2, 2 and 6 bytes in
lower-case hexadecimal, separated by dashes. -/
def uuidChars (u : UUID) : List Char :=
  hexBytes (u.bytes.take 4) ++ '-' ::
    (hexBytes ((u.bytes.drop 4).take 2) ++ '-' ::
      (hexBytes ((u.bytes.drop 6).take 2) ++ '-' ::
        (hexBytes ((u.bytes.drop 8).take 2) ++ '-' :: hexBytes (u.bytes.drop 10))))

/-- Modelled from the spec: `common.UUID.String`, the canonical UUID text. -/
def UUID.String (u : UUID) : String := ⟨uuidChars u⟩

/-- Reads a canonical UUID text from the front of `cs`. -/
def parseUUIDChars (cs : List Char) : Option (UUID × List Char) :=
  match parseHexBytes 4 cs with
  | none => none
  | some (g1, r1) =>
  match expectDash r1 with
  | none => none
  | some r1 =>
  match parseHexBytes 2 r1 with
  | none => none
  | some (g2, r2) =>
  match expectDash r2 with
  | none => none
  | some r2 =>
  match parseHexBytes 2 r2 with
  | none => none
  | some (g3, r3) =>
  match expectDash r3 with
  | none => none
  | some r3 =>
  match parseHexBytes 2 r3 with
  | none => none
  | some (g4, r4) =>
  match expectDash r4 with
  | none => none
  | some r4 =>
  match parseHexBytes 6 r4 with
  | none => none
  | some (g5, r5) =>
    if h : (g1 ++ (g2 ++ (g3 ++ (g4 ++ g5)))).length = 16 then
      some (⟨g1 ++ (g2 ++ (g3 ++ (g4 ++ g5))), h⟩, r5)
    else none

/-- Modelled from the spec: a parser of the canonical UUID text, one possible
`common.ParseUUID` ("it must parse as a UUID"). -/
def parseUUIDText (s : String) : Except String UUID :=
  match parseUUIDChars s.data with
  | some (u, []) => .ok u
  | _ => .error "invalid UUID"

/-- Modelled from the spec: `json.Marshal` on a UUID, whose type declaration is
not part of the handler's file.  The spec's wire format writes a job id as a
JSON string holding the canonical text (`"JobIds":["11111111-..."]`). -/
def jsonMarshalUUID (u : UUID) : Except String String :=
  .ok ⟨'"' :: (uuidChars u ++ ['"'])⟩

/-- Modelled from the spec: `json.Unmarshal` into a UUID, the inverse reading of
`jsonMarshalUUID`: a JSON string holding a canonical UUID text. -/
def jsonUnmarshalUUID (s : String) : Except String UUID :=
  match s.data with
  | '"' :: cs =>
    match parseUUIDChars cs with
    | some (u, ['"']) => .ok u
    | _ => .error "json: cannot unmarshal into UUID"
  | _ => .error "json: cannot unmarshal into UUID"

/-! ## The data model (package `common`) -/

/-- Modelled from the spec: `common.ListCmdArgsAndFlags`, the two texts the
command line hands over: a job id (empty for "all jobs") and a status filter
(empty for "no filter"). -/
structure ListCmdArgsAndFlags where
  JobId : String
  OfStatus : String
deriving DecidableEq

/-- Modelled from the spec: `common.ListJobPartsTransfers`, the query: the
field `JobId` is a string and `ExpectedTransferStatus` an 8-bit status code. -/
structure ListJobPartsTransfers where
  JobId : String
  ExpectedTransferStatus : Fin 256
deriving DecidableEq

/-- Modelled from the spec: `common.ExistingJobDetails`, the job-list reply
`{ JobIds: [UUID, ...] }`. -/
structure ExistingJobDetails where
  JobIds : List UUID
deriving DecidableEq

/-- Modelled from the spec: one record of `common.TransfersDetail`:
`{Src, Dst, TransferStatus}`. -/
structure TransferDetail where
  Src : String
  Dst : String
  TransferStatus : String
deriving DecidableEq

/-- Modelled from the spec: `common.TransfersDetail`, the transfer-list reply
`{ Details: [...] }`. -/
structure TransfersDetail where
  Details : List TransferDetail
deriving DecidableEq

/-- Modelled from the spec: one failed-transfer record `{Src, Dst}`. -/
structure FailedTransfer where
  Src : String
  Dst : String
deriving DecidableEq

/-- A 64-bit floating-point number, kept as its bit pattern: the handler
prints the value and never computes with it. -/
structure Float64 where
  bits : Nat
deriving DecidableEq

/-- Modelled from the spec: `common.JobProgressSummary`, the progress-summary
reply. -/
structure JobProgressSummary where
  TotalNumberOfTransfer : Nat
  TotalNumberofTransferCompleted : Nat
  TotalNumberofFailedTransfer : Nat
  CompleteJobOrdered : Bool
  PercentageProgress : Float64
  FailedTransfers : List FailedTransfer
deriving DecidableEq

/-! ## Runs -/

/-- A Go `error` that reaches `panic`. -/
inductive GoError where
  /-- An error known by its message (`errors.New`, or the error a collaborator returned). -/
  | text (message : String)
  /-- Modelled from the spec: the failure of the status-name lookup. -/
  | MalformedIdentifier (name : String)
deriving DecidableEq

/-- How a Go function ended. -/
inductive Exit where
  | returned
  | panicked (err : GoError)
deriving DecidableEq

/-- One operand of `fmt.Println`. -/
inductive Operand where
  | str (s : String)
  | num (n : Nat)
  | bool (b : Bool)
  | float (x : Float64)
deriving DecidableEq

/-- The three printers of a reply. -/
inductive Decoder where
  | PrintExistingJobIds
  | PrintJobProgressSummary
  | PrintJobTransfers
deriving DecidableEq

/-- The request `HandleListCommand` builds: method, URL and query parameters in
the order they were added. -/
structure Request where
  Method : String
  URL : String
  Query : List (String × String)
deriving DecidableEq

/-- What `client.Do` hands back: the status code, the status text, and what
reading the whole body gives. -/
structure Response where
  StatusCode : Nat
  Status : String
  Body : Except String String
deriving DecidableEq

/-- The actions of a run. -/
inductive Event where
  /-- The call `fmt.Println(operands...)`: one printed line. -/
  | Println (operands : List Operand)
  /-- The call `json.Marshal(listOrder)`. -/
  | Marshal (listOrder : ListJobPartsTransfers)
  /-- The call `client.Do(req)`. -/
  | Do (req : Request)
  /-- The call `ioutil.ReadAll(resp.Body)`. -/
  | ReadAll
  /-- The call of one of the three printers. -/
  | Call (d : Decoder)
  /-- The call `resp.Body.Close()`. -/
  | Close
deriving DecidableEq

/-- A finished run: its actions in order and the way it ended. -/
structure Run where
  trace : List Event
  exit : Exit
deriving DecidableEq

/-- What the handler calls and does not define. -/
structure World where
  /-- The function `common.ParseUUID`. -/
  ParseUUID : String → Except String UUID
  /-- The fixed status name-to-code table behind `common.TransferStatusStringToCode`. -/
  statusTable : List (String × Fin 256)
  /-- The call `json.Marshal(listOrder)`. -/
  marshalListOrder : ListJobPartsTransfers → Except String String
  /-- The call `client.Do(req)`. -/
  Do : Request → Except String Response
  /-- The call `json.Unmarshal(data, &jobs)`. -/
  unmarshalJobs : String → Except String ExistingJobDetails
  /-- The call `json.Unmarshal(data, &transfers)`. -/
  unmarshalTransfers : String → Except String TransfersDetail
  /-- The call `json.Unmarshal(summaryData, &summary)`. -/
  unmarshalSummary : String → Except String JobProgressSummary

/-- Modelled from the spec: `common.TransferStatusStringToCode`, which is not
part of the handler's file: a status name is mapped to its code through a fixed
name-to-code table, and a name the table does not hold is a
`MalformedIdentifier` failure. -/
def TransferStatusStringToCode (table : List (String × Fin 256)) (status : String) :
    Except GoError (Fin 256) :=
  match table.lookup status with
  | some code => .ok code
  | none => .error (.MalformedIdentifier status)

/-! ## The printers -/

/-- The loop `for index := start; index < len(xs); index++ { body }`, where the
body performs one action from `index` and `xs[index]`. -/
def forIndex {α : Type} (xs : List α) (body : Nat → α → Event) (index : Nat) : List Event :=
  if h : index < xs.length then
    body index (xs.get ⟨index, h⟩) :: forIndex xs body (index + 1)
  else []
termination_by xs.length - index

/-- The function `PrintExistingJobIds` (lines 105-115). -/
def PrintExistingJobIds (W : World) (data : String) : Run :=
  match W.unmarshalJobs data with
  | .error err => ⟨[], .panicked (.text err)⟩
  | .ok jobs =>
    ⟨.Println [.str "Existing Jobs "] ::
        forIndex jobs.JobIds (fun _ id => .Println [.str id.String]) 0,
      .returned⟩

/-- The function `PrintJobTransfers` (lines 118-129). -/
def PrintJobTransfers (W : World) (data : String) (jobId : String) : Run :=
  match W.unmarshalTransfers data with
  | .error err => ⟨[], .panicked (.text err)⟩
  | .ok transfers =>
    ⟨.Println [.str ("----------- Transfers for JobId " ++ jobId ++ " -----------")] ::
        forIndex transfers.Details
          (fun _ d => .Println [.str ("transfer--> source: " ++ d.Src ++ " destination: " ++
            d.Dst ++ " status " ++ d.TransferStatus)]) 0,
      .returned⟩

/-- The function `PrintJobProgressSummary` (lines 132-149). -/
def PrintJobProgressSummary (W : World) (summaryData : String) (jobId : String) : Run :=
  match W.unmarshalSummary summaryData with
  | .error err =>
    ⟨[], .panicked (.text ("error unmarshaling the progress summary. Failed with error " ++ err))⟩
  | .ok summary =>
    ⟨.Println [.str ("--------------- Progress Summary for Job " ++ jobId ++ " ---------------")] ::
      .Println [.str "Total Number of Transfer ", .num summary.TotalNumberOfTransfer] ::
      .Println [.str "Total Number of Transfer Completed ",
        .num summary.TotalNumberofTransferCompleted] ::
      .Println [.str "Total Number of Transfer Failed ",
        .num summary.TotalNumberofFailedTransfer] ::
      .Println [.str "Has the final part been ordered ", .bool summary.CompleteJobOrdered] ::
      .Println [.str "Progress of Job in terms of Perecentage ",
        .float summary.PercentageProgress] ::
      forIndex summary.FailedTransfers
        (fun index t => .Println [.str ("transfer-" ++ toString index ++ "\tsource: " ++ t.Src ++
          "\tdestination: " ++ t.Dst)]) 0,
      .returned⟩

/-! ## The handler -/

/-- The query builder, lines 36-61 of `HandleListCommand`: the query, or the
run that ended before a query was built. -/
def buildQuery (W : World) (commandLineInput : ListCmdArgsAndFlags) :
    Except Run ListJobPartsTransfers :=
  let JobId : Except Run String :=
    if commandLineInput.JobId ≠ "" then
      match W.ParseUUID commandLineInput.JobId with
      | .error _ =>
        .error ⟨[.Println [.str "invalid jobId passed to list the respective job info"]],
          .returned⟩
      | .ok jobId =>
        match jsonMarshalUUID jobId with
        | .error _ => .error ⟨[.Println [.str "error marshalling the jobId"]], .returned⟩
        | .ok marshaledJobId => .ok marshaledJobId
    else .ok ""
  match JobId with
  | .error r => .error r
  | .ok JobId =>
    if commandLineInput.OfStatus ≠ "" then
      match TransferStatusStringToCode W.statusTable commandLineInput.OfStatus with
      | .error err => .error ⟨[], .panicked err⟩
      | .ok code => .ok ⟨JobId, code⟩
    else .ok ⟨JobId, 255⟩

/-- The request of lines 67-78: a GET to the fixed loopback endpoint with the
parameters `Type=list` and `command=<serialized query>`.  (`http.NewRequest`
cannot fail on this fixed method and URL, so its error branch is left out.) -/
def newListRequest (commandSerialized : String) : Request :=
  ⟨"GET", "http://localhost:1337", [("Type", "list"), ("command", commandSerialized)]⟩

/-- Lines 90-101 of `HandleListCommand`: read the body and hand it to the
printer the request selects. -/
def readAndPrint (W : World) (commandLineInput : ListCmdArgsAndFlags)
    (listOrder : ListJobPartsTransfers) (resp : Response) : Run :=
  match resp.Body with
  | .error err => ⟨[.ReadAll], .panicked (.text err)⟩
  | .ok body =>
    if listOrder.JobId = "" then
      let r := PrintExistingJobIds W body
      ⟨.ReadAll :: .Call .PrintExistingJobIds :: r.trace, r.exit⟩
    else if commandLineInput.OfStatus = "" then
      let r := PrintJobProgressSummary W body commandLineInput.JobId
      ⟨.ReadAll :: .Call .PrintJobProgressSummary :: r.trace, r.exit⟩
    else
      let r := PrintJobTransfers W body commandLineInput.JobId
      ⟨.ReadAll :: .Call .PrintJobTransfers :: r.trace, r.exit⟩

/-- The function `HandleListCommand` (lines 35-102).  The deferred
`resp.Body.Close()` of line 89 runs when the function ends after line 89,
by a return or by a panic. -/
def HandleListCommand (W : World) (commandLineInput : ListCmdArgsAndFlags) : Run :=
  match buildQuery W commandLineInput with
  | .error r => r
  | .ok listOrder =>
    match W.marshalListOrder listOrder with
    | .error err => ⟨[.Marshal listOrder], .panicked (.text err)⟩
    | .ok commandSerialized =>
      let req := newListRequest commandSerialized
      match W.Do req with
      | .error err => ⟨[.Marshal listOrder, .Do req], .panicked (.text err)⟩
      | .ok resp =>
        if resp.StatusCode ≠ 202 then
          ⟨[.Marshal listOrder, .Do req,
              .Println [.str "request failed with status ", .str resp.Status]],
            .panicked (.text ("request failed with status " ++ resp.Status))⟩
        else
          let r := readAndPrint W commandLineInput listOrder resp
          ⟨.Marshal listOrder :: .Do req :: (r.trace ++ [.Close]), r.exit⟩

/-! ## A sample world -/

/-- The UUID `11111111-1111-1111-1111-111111111111`. -/
def uuidOnes : UUID := ⟨List.replicate 16 17, by decide⟩

/-- A sample status table; the engine's own table is not part of the handler's file. -/
def sampleStatusTable : List (String × Fin 256) :=
  [("Queued", 0), ("InProgress", 1), ("Completed", 2), ("Failed", 3)]

/-- The body of a JSON string: quotes and backslashes escaped. -/
def jsonEscape : List Char → List Char
  | [] => []
  | c :: cs => if c = '"' ∨ c = '\\' then '\\' :: c :: jsonEscape cs else c :: jsonEscape cs

/-- A sample serializer of the query, with the field names of the wire contract. -/
def sampleMarshalListOrder (listOrder : ListJobPartsTransfers) : Except String String :=
  .ok ("\x7b\"JobId\":\"" ++ String.mk (jsonEscape listOrder.JobId.data) ++
    "\",\"ExpectedTransferStatus\":" ++ toString listOrder.ExpectedTransferStatus.val ++ "\x7d")

/-- Drops `pre` from the front of `cs`. -/
def dropFront : List Char → List Char → Option (List Char)
  | [], cs => some cs
  | p :: pre, c :: cs => if p = c then dropFront pre cs else none
  | _ :: _, [] => none

/-- Reads `"uuid","uuid",...,"uuid"]}` to its end. -/
def parseQuotedUUIDs : Nat → List Char → Option (List UUID)
  | 0, _ => none
  | fuel + 1, '"' :: cs =>
    match parseUUIDChars cs with
    | some (u, ['"', ']', '}']) => some [u]
    | some (u, '"' :: ',' :: rest) =>
      match parseQuotedUUIDs fuel rest with
      | some us => some (u :: us)
      | none => none
    | _ => none
  | _ + 1, _ => none

/-- A sample decoder of the job-list reply: it reads the compact form
`{"JobIds":["uuid",...]}` and rejects every other body. -/
def sampleUnmarshalJobs (data : String) : Except String ExistingJobDetails :=
  match dropFront "\x7b\"JobIds\":[".data data.data with
  | some [']', '}'] => .ok ⟨[]⟩
  | some cs =>
    match parseQuotedUUIDs cs.length cs with
    | some us => .ok ⟨us⟩
    | none => .error "json: cannot unmarshal the job list"
  | none => .error "json: cannot unmarshal the job list"

/-- The progress summary of the spec's example. -/
def sampleSummary : JobProgressSummary :=
  { TotalNumberOfTransfer := 10
    TotalNumberofTransferCompleted := 7
    TotalNumberofFailedTransfer := 3
    CompleteJobOrdered := true
    PercentageProgress := ⟨0x4051800000000000⟩
    FailedTransfers := [⟨"a", "b"⟩] }

/-- The body of the spec's progress-summary example. -/
def sampleSummaryBody : String :=
  "\x7b\"TotalNumberOfTransfer\":10,\"TotalNumberofTransferCompleted\":7," ++
  "\"TotalNumberofFailedTransfer\":3,\"CompleteJobOrdered\":true,\"PercentageProgress\":70.0," ++
  "\"FailedTransfers\":[\x7b\"Src\":\"a\",\"Dst\":\"b\"\x7d]\x7d"

/-- A sample decoder of the progress summary, tabulated at the one body of the
spec's example; every other body is rejected. -/
def sampleUnmarshalSummary (data : String) : Except String JobProgressSummary :=
  if data = sampleSummaryBody then .ok sampleSummary
  else .error "json: cannot unmarshal the progress summary"

/-- A transfer-list body. -/
def sampleTransfersBody : String :=
  "\x7b\"Details\":[\x7b\"Src\":\"a\",\"Dst\":\"b\",\"TransferStatus\":\"Failed\"\x7d]\x7d"

/-- A sample decoder of the transfer list, tabulated at one body; every other
body is rejected. -/
def sampleUnmarshalTransfers (data : String) : Except String TransfersDetail :=
  if data = sampleTransfersBody then .ok ⟨[⟨"a", "b", "Failed"⟩]⟩
  else .error "json: cannot unmarshal the transfer list"

/-- A world in which the engine answers every request with `reply`. -/
def sampleWorld (reply : Except String Response) : World :=
  { ParseUUID := parseUUIDText
    statusTable := sampleStatusTable
    marshalListOrder := sampleMarshalListOrder
    Do := fun _ => reply
    unmarshalJobs := sampleUnmarshalJobs
    unmarshalTransfers := sampleUnmarshalTransfers
    unmarshalSummary := sampleUnmarshalSummary }

/-- The text of `uuidOnes`. -/
def onesText : String := "11111111-1111-1111-1111-111111111111"

/-- The job-list body of the spec's example. -/
def sampleJobsBody : String :=
  "\x7b\"JobIds\":[\"11111111-1111-1111-1111-111111111111\"]\x7d"

/-- The reply `202 Accepted` with the given body. -/
def accepted (body : String) : Response := ⟨202, "202 Accepted", .ok body⟩

/-- The reply `500 Internal Server Error`. -/
def serverError : Response := ⟨500, "500 Internal Server Error", .ok "boom"⟩

/-! ## What is observed of a run -/

/-- The printers called in a trace, in order. -/
def callsOf : List Event → List Decoder
  | [] => []
  | .Call d :: t => d :: callsOf t
  | _ :: t => callsOf t

/-- The printers called in a run, in order. -/
def calls (r : Run) : List Decoder := callsOf r.trace

/-- The dispatch rule in the spec's words: an empty job id selects the job-list
printer whatever the status filter is; a job id without a status filter selects
the progress summary; a job id with a status filter selects the transfer list. -/
def selectDecoder (jobIdEmpty statusEmpty : Bool) : Decoder :=
  match jobIdEmpty, statusEmpty with
  | true, _ => .PrintExistingJobIds
  | false, true => .PrintJobProgressSummary
  | false, false => .PrintJobTransfers

/-- The run of the printer `d` on a body, for the job-id text `jobId`. -/
def printerRun (W : World) (d : Decoder) (body jobId : String) : Run :=
  match d with
  | .PrintExistingJobIds => PrintExistingJobIds W body
  | .PrintJobProgressSummary => PrintJobProgressSummary W body jobId
  | .PrintJobTransfers => PrintJobTransfers W body jobId

/-! ## Lemmas shared by the results -/

/-- The index loop visits the elements from `index` on, in order, each with
its own index. -/
theorem forIndex_eq_map {α : Type} (xs : List α) (body : Nat → α → Event) (index : Nat) :
    forIndex xs body index =
      ((xs.drop index).enumFrom index).map (fun p => body p.1 p.2) := by
  generalize h : xs.length - index = k
  induction k generalizing index with
  | zero =>
    rw [forIndex]
    have hn : ¬ index < xs.length := by omega
    rw [dif_neg hn, List.drop_eq_nil_of_le (by omega)]
    rfl
  | succ k ih =>
    rw [forIndex]
    have hi : index < xs.length := by omega
    rw [dif_pos hi, ih (index + 1) (by omega), List.drop_eq_getElem_cons hi]
    rfl

/-- From index 0 the loop visits the whole list. -/
theorem forIndex_zero {α : Type} (xs : List α) (body : Nat → α → Event) :
    forIndex xs body 0 = xs.enum.map (fun p => body p.1 p.2) := by
  rw [forIndex_eq_map]
  rfl

/-- A loop body that ignores the index is a map. -/
theorem forIndex_const {α : Type} (xs : List α) (f : α → Event) :
    forIndex xs (fun _ x => f x) 0 = xs.map f := by
  rw [forIndex_zero, List.enum]
  generalize 0 = n
  induction xs generalizing n with
  | nil => rfl
  | cons x xs ih => simp [List.enumFrom_cons, ih]

/-- Reading back a hexadecimal digit. -/
theorem hexVal_hexDigit_mod (n : Nat) : hexVal (hexDigit n) = some (n % 16) := by
  have key : ∀ k : Fin 16, hexVal (hexDigit k.val) = some k.val := by decide
  have h := key ⟨n % 16, Nat.mod_lt _ (by decide)⟩
  have e : hexDigit (n % 16) = hexDigit n := by simp [hexDigit]
  simpa [e] using h

/-- The two digits of a byte give the byte back. -/
theorem byte_of_digits (b : Fin 256) :
    (Fin.ofNat (16 * (b.val / 16 % 16) + b.val % 16) : Fin 256) = b := by
  apply Fin.ext
  have hb := b.isLt
  simp only [Fin.ofNat]
  omega

/-- Reading back the digits of a list of bytes. -/
theorem parseHexBytes_hexBytes (bs : List (Fin 256)) (rest : List Char) :
    parseHexBytes bs.length (hexBytes bs ++ rest) = some (bs, rest) := by
  induction bs with
  | nil => rfl
  | cons b bs ih =>
    simp only [hexBytes, List.length_cons, List.cons_append, parseHexBytes, hexVal_hexDigit_mod,
      List.append_eq, ih, byte_of_digits]

/-- Reading back the canonical text of a UUID. -/
theorem parseUUIDChars_uuidChars (u : UUID) (rest : List Char) :
    parseUUIDChars (uuidChars u ++ rest) = some (u, rest) := by
  obtain ⟨bytes, size⟩ := u
  have h1 : (bytes.take 4).length = 4 := by simp [size]
  have h2 : ((bytes.drop 4).take 2).length = 2 := by simp [size]
  have h3 : ((bytes.drop 6).take 2).length = 2 := by simp [size]
  have h4 : ((bytes.drop 8).take 2).length = 2 := by simp [size]
  have h5 : (bytes.drop 10).length = 6 := by simp [size]
  have p1 := fun r => parseHexBytes_hexBytes (bytes.take 4) r
  have p2 := fun r => parseHexBytes_hexBytes ((bytes.drop 4).take 2) r
  have p3 := fun r => parseHexBytes_hexBytes ((bytes.drop 6).take 2) r
  have p4 := fun r => parseHexBytes_hexBytes ((bytes.drop 8).take 2) r
  have p5 := fun r => parseHexBytes_hexBytes (bytes.drop 10) r
  rw [h1] at p1
  rw [h2] at p2
  rw [h3] at p3
  rw [h4] at p4
  rw [h5] at p5
  have e4 : List.take 2 (List.drop 8 bytes) ++ List.drop 10 bytes = List.drop 8 bytes := by
    have := List.take_append_drop 2 (List.drop 8 bytes)
    simpa using this
  have e3 : List.take 2 (List.drop 6 bytes) ++ List.drop 8 bytes = List.drop 6 bytes := by
    have := List.take_append_drop 2 (List.drop 6 bytes)
    simpa using this
  have e2 : List.take 2 (List.drop 4 bytes) ++ List.drop 6 bytes = List.drop 4 bytes := by
    have := List.take_append_drop 2 (List.drop 4 bytes)
    simpa using this
  have e : List.take 4 bytes ++ (List.take 2 (List.drop 4 bytes) ++
      (List.take 2 (List.drop 6 bytes) ++ (List.take 2 (List.drop 8 bytes) ++
        List.drop 10 bytes))) = bytes := by
    rw [e4, e3, e2, List.take_append_drop]
  simp only [parseUUIDChars, uuidChars, List.append_assoc, List.cons_append, p1, p2, p3, p4, p5,
    expectDash]
  simp [e, size]

/-- A marshalled UUID is never the empty string. -/
theorem jsonMarshalUUID_ne_empty (u : UUID) (s : String) (h : jsonMarshalUUID u = .ok s) :
    s ≠ "" := by
  simp only [jsonMarshalUUID, Except.ok.injEq] at h
  subst h
  intro hc
  have := congrArg String.data hc
  simp at this

/-- Unmarshalling undoes marshalling on UUIDs. -/
theorem jsonUnmarshalUUID_marshal (u : UUID) (s : String) (h : jsonMarshalUUID u = .ok s) :
    jsonUnmarshalUUID s = .ok u := by
  simp only [jsonMarshalUUID, Except.ok.injEq] at h
  subst h
  simp [jsonUnmarshalUUID, parseUUIDChars_uuidChars]

/-- A trace of printed lines calls no printer. -/
theorem callsOf_printed (t : List Event) (h : ∀ e ∈ t, ∃ ops, e = Event.Println ops) :
    callsOf t = [] := by
  induction t with
  | nil => rfl
  | cons e t ih =>
    obtain ⟨ops, rfl⟩ := h e (List.mem_cons_self _ _)
    simpa [callsOf] using ih (fun e he => h e (List.mem_cons_of_mem _ he))

/-- The printers called in a concatenation. -/
theorem callsOf_append (t u : List Event) : callsOf (t ++ u) = callsOf t ++ callsOf u := by
  induction t with
  | nil => rfl
  | cons e t ih => cases e <;> simp [callsOf, ih]

/-- A loop of `Println` calls only prints. -/
theorem forIndex_printed {α : Type} (xs : List α) (f : Nat → α → List Operand) (index : Nat) :
    ∀ e ∈ forIndex xs (fun i x => Event.Println (f i x)) index, ∃ ops, e = Event.Println ops := by
  intro e he
  rw [forIndex_eq_map, List.mem_map] at he
  obtain ⟨p, _, rfl⟩ := he
  exact ⟨_, rfl⟩

/-- The job-list printer only prints. -/
theorem PrintExistingJobIds_printed (W : World) (data : String) :
    ∀ e ∈ (PrintExistingJobIds W data).trace, ∃ ops, e = Event.Println ops := by
  intro e he
  unfold PrintExistingJobIds at he
  split at he
  · simp at he
  · rcases List.mem_cons.1 he with rfl | he
    · exact ⟨_, rfl⟩
    · exact forIndex_printed _ _ _ e he

/-- The transfer-list printer only prints. -/
theorem PrintJobTransfers_printed (W : World) (data jobId : String) :
    ∀ e ∈ (PrintJobTransfers W data jobId).trace, ∃ ops, e = Event.Println ops := by
  intro e he
  unfold PrintJobTransfers at he
  split at he
  · simp at he
  · rcases List.mem_cons.1 he with rfl | he
    · exact ⟨_, rfl⟩
    · exact forIndex_printed _ _ _ e he

/-- The progress-summary printer only prints. -/
theorem PrintJobProgressSummary_printed (W : World) (data jobId : String) :
    ∀ e ∈ (PrintJobProgressSummary W data jobId).trace, ∃ ops, e = Event.Println ops := by
  intro e he
  unfold PrintJobProgressSummary at he
  split at he
  · simp at he
  · simp only [List.mem_cons] at he
    rcases he with rfl | rfl | rfl | rfl | rfl | rfl | he
    · exact ⟨_, rfl⟩
    · exact ⟨_, rfl⟩
    · exact ⟨_, rfl⟩
    · exact ⟨_, rfl⟩
    · exact ⟨_, rfl⟩
    · exact ⟨_, rfl⟩
    · exact forIndex_printed _ _ _ e he

/-- The encoded job id of a built query is empty exactly when the job-id text is. -/
theorem buildQuery_JobId_empty_iff (W : World) (c : ListCmdArgsAndFlags)
    (q : ListJobPartsTransfers) (h : buildQuery W c = .ok q) : q.JobId = "" ↔ c.JobId = "" := by
  unfold buildQuery at h
  by_cases hj : c.JobId = ""
  · simp only [hj, ne_eq, not_true_eq_false, if_false] at h
    split at h
    · split at h
      · exact absurd h (by simp)
      · simp only [Except.ok.injEq] at h
        subst h
        simp [hj]
    · simp only [Except.ok.injEq] at h
      subst h
      simp [hj]
  · simp only [hj, ne_eq, not_false_eq_true, if_true] at h
    cases hp : W.ParseUUID c.JobId with
    | error e => simp [hp] at h
    | ok u =>
      simp only [hp, jsonMarshalUUID] at h
      have hne : (String.mk ('"' :: (uuidChars u ++ ['"']))) ≠ "" := by
        intro hc
        have := congrArg String.data hc
        simp at this
      split at h
      · split at h
        · exact absurd h (by simp)
        · simp only [Except.ok.injEq] at h
          subst h
          simp [hj, hne]
      · simp only [Except.ok.injEq] at h
        subst h
        simp [hj, hne]

/-- A run that ended before a query was built called no collaborator: it
printed at most one line. -/
theorem buildQuery_error (W : World) (c : ListCmdArgsAndFlags) (r : Run)
    (h : buildQuery W c = .error r) : ∀ e ∈ r.trace, ∃ ops, e = Event.Println ops := by
  unfold buildQuery at h
  simp only [jsonMarshalUUID] at h
  intro e he
  by_cases hj : c.JobId = ""
  · simp only [hj, ne_eq, not_true_eq_false, if_false] at h
    split at h
    · split at h
      · simp only [Except.error.injEq] at h
        subst h
        simp at he
      · exact absurd h (by simp)
    · exact absurd h (by simp)
  · simp only [hj, ne_eq, not_false_eq_true, if_true] at h
    cases hp : W.ParseUUID c.JobId with
    | error e' =>
      simp only [hp, Except.error.injEq] at h
      subst h
      simp only [List.mem_singleton] at he
      exact ⟨_, he⟩
    | ok u =>
      simp only [hp] at h
      split at h
      · split at h
        · simp only [Except.error.injEq] at h
          subst h
          simp at he
        · exact absurd h (by simp)
      · exact absurd h (by simp)

/-- The run on an accepted reply: serialize, send, read and print, close. -/
theorem HandleListCommand_accepted (W : World) (c : ListCmdArgsAndFlags)
    (q : ListJobPartsTransfers) (s : String) (resp : Response)
    (hq : buildQuery W c = .ok q) (hm : W.marshalListOrder q = .ok s)
    (hd : W.Do (newListRequest s) = .ok resp) (hs : resp.StatusCode = 202) :
    HandleListCommand W c =
      ⟨.Marshal q :: .Do (newListRequest s) :: ((readAndPrint W c q resp).trace ++ [.Close]),
        (readAndPrint W c q resp).exit⟩ := by
  simp [HandleListCommand, hq, hm, hd, hs]

/-- The run on a rejected reply: serialize, send, print the status, panic. -/
theorem HandleListCommand_rejected (W : World) (c : ListCmdArgsAndFlags)
    (q : ListJobPartsTransfers) (s : String) (resp : Response)
    (hq : buildQuery W c = .ok q) (hm : W.marshalListOrder q = .ok s)
    (hd : W.Do (newListRequest s) = .ok resp) (hs : resp.StatusCode ≠ 202) :
    HandleListCommand W c =
      ⟨[.Marshal q, .Do (newListRequest s),
          .Println [.str "request failed with status ", .str resp.Status]],
        .panicked (.text ("request failed with status " ++ resp.Status))⟩ := by
  simp [HandleListCommand, hq, hm, hd, hs]

/-- The printers called after an accepted reply whose body was read. -/
theorem readAndPrint_calls (W : World) (c : ListCmdArgsAndFlags) (q : ListJobPartsTransfers)
    (resp : Response) (body : String) (hb : resp.Body = .ok body) :
    callsOf (readAndPrint W c q resp).trace =
      [if q.JobId = "" then Decoder.PrintExistingJobIds
        else if c.OfStatus = "" then Decoder.PrintJobProgressSummary
        else Decoder.PrintJobTransfers] := by
  unfold readAndPrint
  simp only [hb]
  split
  · simp [callsOf, callsOf_printed _ (PrintExistingJobIds_printed W body)]
  · split
    · simp [callsOf, callsOf_printed _ (PrintJobProgressSummary_printed W body c.JobId)]
    · simp [callsOf, callsOf_printed _ (PrintJobTransfers_printed W body c.JobId)]

/-- A run in which a printer was called got an accepted reply and read its body. -/
theorem reached_decode (W : World) (c : ListCmdArgsAndFlags) (d : Decoder)
    (h : Event.Call d ∈ (HandleListCommand W c).trace) :
    ∃ q s resp body, buildQuery W c = .ok q ∧ W.marshalListOrder q = .ok s ∧
      W.Do (newListRequest s) = .ok resp ∧ resp.StatusCode = 202 ∧ resp.Body = .ok body := by
  unfold HandleListCommand at h
  cases hq : buildQuery W c with
  | error r =>
    simp only [hq] at h
    obtain ⟨ops, he⟩ := buildQuery_error W c r hq _ h
    exact absurd he (by simp)
  | ok q =>
    cases hm : W.marshalListOrder q with
    | error e => simp [hq, hm] at h
    | ok s =>
      cases hd : W.Do (newListRequest s) with
      | error e => simp [hq, hm, hd] at h
      | ok resp =>
        by_cases hs : resp.StatusCode = 202
        · cases hb : resp.Body with
          | error e => simp [hq, hm, hd, hs, readAndPrint, hb] at h
          | ok body => exact ⟨q, s, resp, body, rfl, hm, hd, hs, hb⟩
        · simp [hq, hm, hd, hs] at h

/-! ## The results -/

/-- C1: on every input that reaches the decode step (the query was built and
serialized, the request was answered with status 202 and the body was read),
whatever the body is, `HandleListCommand` calls exactly one printer and runs it
on that body, and which one is fixed by whether the job-id text is empty and
whether the status text is empty: empty job id, the job-list printer, whatever
the status; job id without status, the progress summary; job id with status,
the transfer list.  The test on the encoded field `listOrder.JobId` agrees with
the test on the raw job-id text. -/
theorem decoder_selection (W : World) (c : ListCmdArgsAndFlags) (q : ListJobPartsTransfers)
    (s : String) (resp : Response) (body : String)
    (hq : buildQuery W c = .ok q) (hm : W.marshalListOrder q = .ok s)
    (hd : W.Do (newListRequest s) = .ok resp) (hs : resp.StatusCode = 202)
    (hb : resp.Body = .ok body) :
    calls (HandleListCommand W c) =
        [selectDecoder (decide (c.JobId = "")) (decide (c.OfStatus = ""))] ∧
      HandleListCommand W c =
        ⟨.Marshal q :: .Do (newListRequest s) :: .ReadAll ::
            .Call (selectDecoder (decide (c.JobId = "")) (decide (c.OfStatus = ""))) ::
            ((printerRun W (selectDecoder (decide (c.JobId = "")) (decide (c.OfStatus = "")))
              body c.JobId).trace ++ [.Close]),
          (printerRun W (selectDecoder (decide (c.JobId = "")) (decide (c.OfStatus = "")))
            body c.JobId).exit⟩ ∧
      (q.JobId = "" ↔ c.JobId = "") := by
  have hiff := buildQuery_JobId_empty_iff W c q hq
  have hrun := HandleListCommand_accepted W c q s resp hq hm hd hs
  refine ⟨?_, ?_, hiff⟩
  · rw [hrun]
    simp only [calls, callsOf, callsOf_append, readAndPrint_calls W c q resp body hb,
      List.append_nil]
    by_cases hj : c.JobId = ""
    · simp [hiff.2 hj, hj, selectDecoder]
    · have hqj : q.JobId ≠ "" := fun hc => hj (hiff.1 hc)
      by_cases ho : c.OfStatus = ""
      · simp [hqj, hj, ho, selectDecoder]
      · simp [hqj, hj, ho, selectDecoder]
  · rw [hrun]
    by_cases hj : c.JobId = ""
    · simp [readAndPrint, hb, hiff.2 hj, hj, selectDecoder, printerRun]
    · have hqj : q.JobId ≠ "" := fun hc => hj (hiff.1 hc)
      by_cases ho : c.OfStatus = ""
      · simp [readAndPrint, hb, hqj, hj, ho, selectDecoder, printerRun]
      · simp [readAndPrint, hb, hqj, hj, ho, selectDecoder, printerRun]

/-- C2: when the engine answers with a status code other than 202, whatever the
job-id and status texts were, `HandleListCommand` prints the status text and
panics with the message "request failed with status" followed by the status
text; no printer is called and the body is not read. -/
theorem rejected_status_aborts (W : World) (c : ListCmdArgsAndFlags)
    (q : ListJobPartsTransfers) (s : String) (resp : Response)
    (hq : buildQuery W c = .ok q) (hm : W.marshalListOrder q = .ok s)
    (hd : W.Do (newListRequest s) = .ok resp) (hs : resp.StatusCode ≠ 202) :
    (HandleListCommand W c).exit =
        .panicked (.text ("request failed with status " ++ resp.Status)) ∧
      (HandleListCommand W c).trace =
        [.Marshal q, .Do (newListRequest s),
          .Println [.str "request failed with status ", .str resp.Status]] ∧
      calls (HandleListCommand W c) = [] ∧
      Event.ReadAll ∉ (HandleListCommand W c).trace := by
  rw [HandleListCommand_rejected W c q s resp hq hm hd hs]
  simp [calls, callsOf]

/-- C3: each of the three printers, on a body that fails to decode, panics
(the progress-summary printer with its wrapped message) and prints nothing, not
even the header; and in every case a printer either panics with an empty trace
or returns after the header line. -/
theorem decode_failure_prints_nothing (W : World) (data jobId err : String) :
    (W.unmarshalJobs data = .error err →
        PrintExistingJobIds W data = ⟨[], .panicked (.text err)⟩) ∧
      (W.unmarshalTransfers data = .error err →
        PrintJobTransfers W data jobId = ⟨[], .panicked (.text err)⟩) ∧
      (W.unmarshalSummary data = .error err →
        PrintJobProgressSummary W data jobId =
          ⟨[], .panicked (.text
            ("error unmarshaling the progress summary. Failed with error " ++ err))⟩) ∧
      (((PrintExistingJobIds W data).trace = [] ∧
          ∃ e, (PrintExistingJobIds W data).exit = .panicked e) ∨
        (∃ jobs, W.unmarshalJobs data = .ok jobs ∧ PrintExistingJobIds W data =
          ⟨.Println [.str "Existing Jobs "] ::
            jobs.JobIds.map (fun id => .Println [.str id.String]), .returned⟩)) ∧
      (((PrintJobTransfers W data jobId).trace = [] ∧
          ∃ e, (PrintJobTransfers W data jobId).exit = .panicked e) ∨
        (∃ transfers, W.unmarshalTransfers data = .ok transfers ∧
          PrintJobTransfers W data jobId =
          ⟨.Println [.str ("----------- Transfers for JobId " ++ jobId ++ " -----------")] ::
            transfers.Details.map (fun d => .Println [.str ("transfer--> source: " ++ d.Src ++
              " destination: " ++ d.Dst ++ " status " ++ d.TransferStatus)]), .returned⟩)) ∧
      (((PrintJobProgressSummary W data jobId).trace = [] ∧
          ∃ e, (PrintJobProgressSummary W data jobId).exit = .panicked e) ∨
        (∃ summary, W.unmarshalSummary data = .ok summary ∧
          PrintJobProgressSummary W data jobId =
          ⟨.Println [.str ("--------------- Progress Summary for Job " ++ jobId ++
              " ---------------")] ::
            .Println [.str "Total Number of Transfer ", .num summary.TotalNumberOfTransfer] ::
            .Println [.str "Total Number of Transfer Completed ",
              .num summary.TotalNumberofTransferCompleted] ::
            .Println [.str "Total Number of Transfer Failed ",
              .num summary.TotalNumberofFailedTransfer] ::
            .Println [.str "Has the final part been ordered ",
              .bool summary.CompleteJobOrdered] ::
            .Println [.str "Progress of Job in terms of Perecentage ",
              .float summary.PercentageProgress] ::
            summary.FailedTransfers.enum.map (fun p => .Println [.str ("transfer-" ++
              toString p.1 ++ "\tsource: " ++ p.2.Src ++ "\tdestination: " ++ p.2.Dst)]),
            .returned⟩)) := by
  refine ⟨?_, ?_, ?_, ?_, ?_, ?_⟩
  · intro h
    simp [PrintExistingJobIds, h]
  · intro h
    simp [PrintJobTransfers, h]
  · intro h
    simp [PrintJobProgressSummary, h]
  · cases h : W.unmarshalJobs data with
    | error e => exact Or.inl (by simp [PrintExistingJobIds, h])
    | ok jobs => exact Or.inr ⟨jobs, rfl, by simp [PrintExistingJobIds, h, forIndex_const]⟩
  · cases h : W.unmarshalTransfers data with
    | error e => exact Or.inl (by simp [PrintJobTransfers, h])
    | ok transfers =>
      exact Or.inr ⟨transfers, rfl, by simp [PrintJobTransfers, h, forIndex_const]⟩
  · cases h : W.unmarshalSummary data with
    | error e => exact Or.inl (by simp [PrintJobProgressSummary, h])
    | ok summary =>
      exact Or.inr ⟨summary, rfl, by simp [PrintJobProgressSummary, h, forIndex_zero]⟩

/-- C4: a non-empty job-id text that `ParseUUID` rejects makes
`HandleListCommand` print the invalid-job-id diagnostic and return at once,
whatever the status text is: no query is serialized, no request is sent and no
printer is called. -/
theorem malformed_job_id_aborts (W : World) (c : ListCmdArgsAndFlags) (err : String)
    (hne : c.JobId ≠ "") (hp : W.ParseUUID c.JobId = .error err) :
    HandleListCommand W c =
        ⟨[.Println [.str "invalid jobId passed to list the respective job info"]],
          .returned⟩ ∧
      (∀ q, Event.Marshal q ∉ (HandleListCommand W c).trace) ∧
      (∀ req, Event.Do req ∉ (HandleListCommand W c).trace) ∧
      calls (HandleListCommand W c) = [] := by
  have h : HandleListCommand W c =
      ⟨[.Println [.str "invalid jobId passed to list the respective job info"]],
        .returned⟩ := by
    simp [HandleListCommand, buildQuery, hne, hp]
  rw [h]
  simp [calls, callsOf]

/-- C5: when the job-id text is non-empty and `ParseUUID` accepts it as the
UUID `u`, the `JobId` field of every query `HandleListCommand` builds is the
JSON encoding of `u`, and decoding that field as a UUID gives `u` back. -/
theorem job_id_round_trip (W : World) (c : ListCmdArgsAndFlags) (u : UUID)
    (q : ListJobPartsTransfers) (hne : c.JobId ≠ "") (hp : W.ParseUUID c.JobId = .ok u)
    (hq : buildQuery W c = .ok q) :
    jsonMarshalUUID u = .ok q.JobId ∧ jsonUnmarshalUUID q.JobId = .ok u := by
  have hj : q.JobId = String.mk ('"' :: (uuidChars u ++ ['"'])) := by
    unfold buildQuery at hq
    simp only [hne, ne_eq, not_false_eq_true, if_true, hp, jsonMarshalUUID] at hq
    split at hq
    · split at hq
      · exact absurd hq (by simp)
      · simp only [Except.ok.injEq] at hq
        subst hq
        rfl
    · simp only [Except.ok.injEq] at hq
      subst hq
      rfl
  have hm : jsonMarshalUUID u = .ok q.JobId := by rw [hj]; rfl
  exact ⟨hm, jsonUnmarshalUUID_marshal u q.JobId hm⟩

/-- C6: with a valid job id (empty, or accepted by `ParseUUID`) and a non-empty
status text: if the status table maps the text to a code, a query is built and
its `ExpectedTransferStatus` is that code; if the table does not hold the text,
`HandleListCommand` fails with `MalformedIdentifier` before anything is
serialized or sent. -/
theorem status_lookup (W : World) (c : ListCmdArgsAndFlags)
    (hv : c.JobId = "" ∨ ∃ u, W.ParseUUID c.JobId = .ok u) (hs : c.OfStatus ≠ "") :
    (∀ code, W.statusTable.lookup c.OfStatus = some code →
        ∃ q, buildQuery W c = .ok q ∧ q.ExpectedTransferStatus = code) ∧
      (W.statusTable.lookup c.OfStatus = none →
        HandleListCommand W c = ⟨[], .panicked (.MalformedIdentifier c.OfStatus)⟩ ∧
        (∀ q, Event.Marshal q ∉ (HandleListCommand W c).trace) ∧
        (∀ req, Event.Do req ∉ (HandleListCommand W c).trace)) := by
  constructor
  · intro code hc
    rcases hv with hj | ⟨u, hp⟩
    · exact ⟨⟨"", code⟩, by simp [buildQuery, hj, hs, TransferStatusStringToCode, hc], rfl⟩
    · by_cases hj : c.JobId = ""
      · exact ⟨⟨"", code⟩, by simp [buildQuery, hj, hs, TransferStatusStringToCode, hc], rfl⟩
      · exact ⟨⟨String.mk ('"' :: (uuidChars u ++ ['"'])), code⟩,
          by simp [buildQuery, hj, hp, hs, TransferStatusStringToCode, hc, jsonMarshalUUID],
          rfl⟩
  · intro hc
    have h : HandleListCommand W c = ⟨[], .panicked (.MalformedIdentifier c.OfStatus)⟩ := by
      rcases hv with hj | ⟨u, hp⟩
      · simp [HandleListCommand, buildQuery, hj, hs, TransferStatusStringToCode, hc]
      · by_cases hj : c.JobId = ""
        · simp [HandleListCommand, buildQuery, hj, hs, TransferStatusStringToCode, hc]
        · simp [HandleListCommand, buildQuery, hj, hp, hs, TransferStatusStringToCode, hc,
            jsonMarshalUUID]
    rw [h]
    simp

/-- C7: with both texts empty the query is `{JobId: "", ExpectedTransferStatus:
255}`; with an empty job-id text every query built has `JobId = ""`, whatever
the status text; with an empty status text every query built has
`ExpectedTransferStatus = 255`, whatever the job-id text; and 255 is the largest
status code there is. -/
theorem empty_inputs_give_sentinels (W : World) (jobId status : String)
    (q1 q2 : ListJobPartsTransfers) (h1 : buildQuery W ⟨"", status⟩ = .ok q1)
    (h2 : buildQuery W ⟨jobId, ""⟩ = .ok q2) :
    buildQuery W ⟨"", ""⟩ = .ok ⟨"", 255⟩ ∧ q1.JobId = "" ∧
      q2.ExpectedTransferStatus = 255 ∧
      ∀ q : ListJobPartsTransfers, q.ExpectedTransferStatus ≤ 255 := by
  refine ⟨by simp [buildQuery], (buildQuery_JobId_empty_iff W _ q1 h1).2 rfl, ?_, ?_⟩
  · unfold buildQuery at h2
    simp only [ne_eq, not_true_eq_false, if_false] at h2
    split at h2
    · exact absurd h2 (by simp)
    · simp only [Except.ok.injEq] at h2
      subst h2
      rfl
  · intro q
    exact Fin.le_last q.ExpectedTransferStatus

/-- C8: on a body that decodes as a progress summary, `PrintJobProgressSummary`
returns after printing the heading and then, in this order, the total, the
completed count, the failed count, the fully-ordered flag and the percentage,
each with the decoded value, followed by one line per failed-transfer record:
as many lines as records, the `i`-th carrying the index `i` and the source and
destination of the `i`-th record. -/
theorem progress_summary_report (W : World) (data jobId : String) (summary : JobProgressSummary)
    (h : W.unmarshalSummary data = .ok summary) :
    PrintJobProgressSummary W data jobId =
        ⟨.Println [.str ("--------------- Progress Summary for Job " ++ jobId ++
            " ---------------")] ::
          .Println [.str "Total Number of Transfer ", .num summary.TotalNumberOfTransfer] ::
          .Println [.str "Total Number of Transfer Completed ",
            .num summary.TotalNumberofTransferCompleted] ::
          .Println [.str "Total Number of Transfer Failed ",
            .num summary.TotalNumberofFailedTransfer] ::
          .Println [.str "Has the final part been ordered ", .bool summary.CompleteJobOrdered] ::
          .Println [.str "Progress of Job in terms of Perecentage ",
            .float summary.PercentageProgress] ::
          summary.FailedTransfers.enum.map (fun p => .Println [.str ("transfer-" ++
            toString p.1 ++ "\tsource: " ++ p.2.Src ++ "\tdestination: " ++ p.2.Dst)]),
          .returned⟩ ∧
      ((PrintJobProgressSummary W data jobId).trace.drop 6).length =
        summary.FailedTransfers.length ∧
      ∀ (i : Nat) (hi : i < summary.FailedTransfers.length),
        ((PrintJobProgressSummary W data jobId).trace.drop 6)[i]? =
          some (.Println [.str ("transfer-" ++ toString i ++ "\tsource: " ++
            (summary.FailedTransfers.get ⟨i, hi⟩).Src ++ "\tdestination: " ++
            (summary.FailedTransfers.get ⟨i, hi⟩).Dst)]) := by
  refine ⟨?_, ?_, ?_⟩
  · simp only [PrintJobProgressSummary, h, forIndex_zero]
  · simp only [PrintJobProgressSummary, h, forIndex_zero]
    simp
  · intro i hi
    simp only [PrintJobProgressSummary, h, forIndex_zero]
    simp [List.getElem?_enum, List.getElem?_eq_getElem hi]

/-- C9: on a body that decodes as a job-id list, `PrintExistingJobIds` returns
after printing the line "Existing Jobs " and then one line per job id, in the
order of the reply, each the canonical text of that id: one line more than
there are ids. -/
theorem existing_jobs_report (W : World) (data : String) (jobs : ExistingJobDetails)
    (h : W.unmarshalJobs data = .ok jobs) :
    PrintExistingJobIds W data =
        ⟨.Println [.str "Existing Jobs "] ::
          jobs.JobIds.map (fun id => .Println [.str id.String]), .returned⟩ ∧
      (PrintExistingJobIds W data).trace.length = jobs.JobIds.length + 1 := by
  refine ⟨?_, ?_⟩
  · simp only [PrintExistingJobIds, h, forIndex_const]
  · simp only [PrintExistingJobIds, h, forIndex_const]
    simp

/-- On an accepted reply the body is closed, and closing is the last action. -/
theorem accepted_closes_body (W : World) (c : ListCmdArgsAndFlags)
    (q : ListJobPartsTransfers) (s : String) (resp : Response)
    (hq : buildQuery W c = .ok q) (hm : W.marshalListOrder q = .ok s)
    (hd : W.Do (newListRequest s) = .ok resp) (hs : resp.StatusCode = 202) :
    (HandleListCommand W c).trace.getLast? = some Event.Close := by
  rw [HandleListCommand_accepted W c q s resp hq hm hd hs]
  have key : ∀ l : List Event, (l ++ [Event.Close]).getLast? = some Event.Close := by
    intro l
    simp
  exact key (Event.Marshal q :: Event.Do (newListRequest s) :: (readAndPrint W c q resp).trace)

/-- C10: on the reply `500 Internal Server Error` to the request with both texts
empty, `HandleListCommand` sent the request, received the reply and panicked
without ever closing the body. -/
theorem body_left_open_on_rejection :
    (sampleWorld (.ok serverError)).Do
        (newListRequest "\x7b\"JobId\":\"\",\"ExpectedTransferStatus\":255\x7d") =
        .ok serverError ∧
      Event.Do (newListRequest "\x7b\"JobId\":\"\",\"ExpectedTransferStatus\":255\x7d") ∈
        (HandleListCommand (sampleWorld (.ok serverError)) ⟨"", ""⟩).trace ∧
      Event.Close ∉ (HandleListCommand (sampleWorld (.ok serverError)) ⟨"", ""⟩).trace ∧
      (HandleListCommand (sampleWorld (.ok serverError)) ⟨"", ""⟩).exit =
        .panicked (.text "request failed with status 500 Internal Server Error") := by
  decide

/-! ## The results at concrete inputs -/

/-- C1 at the three request shapes, each answered with status 202: an empty
job id with the status `Failed` calls the job-list printer, the job id
`11111111-1111-1111-1111-111111111111` without a status calls the progress
summary, and the same job id with the status `Failed` calls the transfer
list. -/
theorem decoder_selection_witness :
    calls (HandleListCommand (sampleWorld (.ok (accepted sampleJobsBody))) ⟨"", "Failed"⟩) =
        [Decoder.PrintExistingJobIds] ∧
      calls (HandleListCommand (sampleWorld (.ok (accepted sampleSummaryBody)))
          ⟨onesText, ""⟩) = [Decoder.PrintJobProgressSummary] ∧
      calls (HandleListCommand (sampleWorld (.ok (accepted sampleTransfersBody)))
          ⟨onesText, "Failed"⟩) = [Decoder.PrintJobTransfers] :=
  ⟨(decoder_selection (sampleWorld (.ok (accepted sampleJobsBody))) ⟨"", "Failed"⟩ ⟨"", 3⟩ _
      (accepted sampleJobsBody) sampleJobsBody (by decide) rfl rfl (by decide) rfl).1,
    (decoder_selection (sampleWorld (.ok (accepted sampleSummaryBody))) ⟨onesText, ""⟩
      ⟨"\"11111111-1111-1111-1111-111111111111\"", 255⟩ _
      (accepted sampleSummaryBody) sampleSummaryBody (by decide) rfl rfl (by decide) rfl).1,
    (decoder_selection (sampleWorld (.ok (accepted sampleTransfersBody))) ⟨onesText, "Failed"⟩
      ⟨"\"11111111-1111-1111-1111-111111111111\"", 3⟩ _
      (accepted sampleTransfersBody) sampleTransfersBody (by decide) rfl rfl (by decide)
      rfl).1⟩

/-- C2 at the reply `500 Internal Server Error` to the request with both texts
empty. -/
theorem rejected_status_aborts_witness :
    (HandleListCommand (sampleWorld (.ok serverError)) ⟨"", ""⟩).exit =
        .panicked (.text ("request failed with status " ++ serverError.Status)) ∧
      calls (HandleListCommand (sampleWorld (.ok serverError)) ⟨"", ""⟩) = [] ∧
      Event.ReadAll ∉ (HandleListCommand (sampleWorld (.ok serverError)) ⟨"", ""⟩).trace :=
  have h := rejected_status_aborts (sampleWorld (.ok serverError)) ⟨"", ""⟩ ⟨"", 255⟩
    "\x7b\"JobId\":\"\",\"ExpectedTransferStatus\":255\x7d" serverError
    (by decide) (by decide) rfl (by decide)
  ⟨h.1, h.2.2.1, h.2.2.2⟩

/-- C3 at the body `not json`, which the sample job-list decoder rejects. -/
theorem decode_failure_prints_nothing_witness :
    (sampleWorld (.ok serverError)).unmarshalJobs "not json" =
        .error "json: cannot unmarshal the job list" ∧
      PrintExistingJobIds (sampleWorld (.ok serverError)) "not json" =
        ⟨[], .panicked (.text "json: cannot unmarshal the job list")⟩ :=
  ⟨by decide,
    (decode_failure_prints_nothing (sampleWorld (.ok serverError)) "not json" ""
      "json: cannot unmarshal the job list").1 (by decide)⟩

/-- C4 at the job-id text `nope` with the status `Failed`. -/
theorem malformed_job_id_aborts_witness :
    (sampleWorld (.ok serverError)).ParseUUID "nope" = .error "invalid UUID" ∧
      HandleListCommand (sampleWorld (.ok serverError)) ⟨"nope", "Failed"⟩ =
        ⟨[.Println [.str "invalid jobId passed to list the respective job info"]],
          .returned⟩ :=
  ⟨by decide,
    (malformed_job_id_aborts (sampleWorld (.ok serverError)) ⟨"nope", "Failed"⟩ "invalid UUID"
      (by decide) (by decide)).1⟩

/-- C5 at the job-id text `11111111-1111-1111-1111-111111111111`. -/
theorem job_id_round_trip_witness :
    buildQuery (sampleWorld (.ok serverError)) ⟨onesText, ""⟩ =
        .ok ⟨"\"11111111-1111-1111-1111-111111111111\"", 255⟩ ∧
      jsonUnmarshalUUID "\"11111111-1111-1111-1111-111111111111\"" = .ok uuidOnes :=
  ⟨by decide,
    (job_id_round_trip (sampleWorld (.ok serverError)) ⟨onesText, ""⟩ uuidOnes
      ⟨"\"11111111-1111-1111-1111-111111111111\"", 255⟩ (by decide) (by decide)
      (by decide)).2⟩

/-- C6 at the status `Failed`, which the sample table maps to 3, and at the
status `Paused`, which the sample table does not hold. -/
theorem status_lookup_witness :
    (∃ q, buildQuery (sampleWorld (.ok serverError)) ⟨onesText, "Failed"⟩ = .ok q ∧
        q.ExpectedTransferStatus = 3) ∧
      HandleListCommand (sampleWorld (.ok serverError)) ⟨onesText, "Paused"⟩ =
        ⟨[], .panicked (.MalformedIdentifier "Paused")⟩ :=
  ⟨(status_lookup (sampleWorld (.ok serverError)) ⟨onesText, "Failed"⟩
      (Or.inr ⟨uuidOnes, by decide⟩) (by decide)).1 3 (by decide),
    ((status_lookup (sampleWorld (.ok serverError)) ⟨onesText, "Paused"⟩
      (Or.inr ⟨uuidOnes, by decide⟩) (by decide)).2 (by decide)).1⟩

/-- C7 at the status `Failed` with an empty job id and at the job id
`11111111-1111-1111-1111-111111111111` with an empty status. -/
theorem empty_inputs_give_sentinels_witness :
    buildQuery (sampleWorld (.ok serverError)) ⟨"", "Failed"⟩ = .ok ⟨"", 3⟩ ∧
      buildQuery (sampleWorld (.ok serverError)) ⟨onesText, ""⟩ =
        .ok ⟨"\"11111111-1111-1111-1111-111111111111\"", 255⟩ ∧
      buildQuery (sampleWorld (.ok serverError)) ⟨"", ""⟩ = .ok ⟨"", 255⟩ :=
  ⟨by decide, by decide,
    (empty_inputs_give_sentinels (sampleWorld (.ok serverError)) onesText "Failed" ⟨"", 3⟩
      ⟨"\"11111111-1111-1111-1111-111111111111\"", 255⟩ (by decide) (by decide)).1⟩

/-- C8 at the spec's example: total 10, completed 7, failed 3, fully ordered,
70 percent, one failed transfer from `a` to `b`. -/
theorem progress_summary_report_witness :
    (sampleWorld (.ok serverError)).unmarshalSummary sampleSummaryBody = .ok sampleSummary ∧
      PrintJobProgressSummary (sampleWorld (.ok serverError)) sampleSummaryBody "job" =
        ⟨[.Println [.str "--------------- Progress Summary for Job job ---------------"],
          .Println [.str "Total Number of Transfer ", .num 10],
          .Println [.str "Total Number of Transfer Completed ", .num 7],
          .Println [.str "Total Number of Transfer Failed ", .num 3],
          .Println [.str "Has the final part been ordered ", .bool true],
          .Println [.str "Progress of Job in terms of Perecentage ",
            .float ⟨0x4051800000000000⟩],
          .Println [.str "transfer-0\tsource: a\tdestination: b"]], .returned⟩ :=
  ⟨by decide,
    (progress_summary_report (sampleWorld (.ok serverError)) sampleSummaryBody "job"
      sampleSummary (by decide)).1.trans (by decide)⟩

/-- C9 at the spec's example: the one job id
`11111111-1111-1111-1111-111111111111`. -/
theorem existing_jobs_report_witness :
    (sampleWorld (.ok serverError)).unmarshalJobs sampleJobsBody = .ok ⟨[uuidOnes]⟩ ∧
      PrintExistingJobIds (sampleWorld (.ok serverError)) sampleJobsBody =
        ⟨[.Println [.str "Existing Jobs "],
          .Println [.str "11111111-1111-1111-1111-111111111111"]], .returned⟩ :=
  ⟨by decide,
    (existing_jobs_report (sampleWorld (.ok serverError)) sampleJobsBody ⟨[uuidOnes]⟩
      (by decide)).1.trans (by decide)⟩

end ListHandler
